import Mathlib

set_option allowUnsafeReducibility true
attribute [semireducible] Rat.mul Rat.add Rat.sub Rat.inv Rat.ofScientific

/-!
Shallow embedding of the staff-productivity-analysis revenue core
(`src/revenue_calculator.py` and the KPI aggregation of `src/kpi_metrics.py`).

Modelling conventions:
* A pandas DataFrame is a `Frame`: a list of column names plus a list of rows.
  Column validation in `compute_revenue` consults only the column list, as the
  Python code consults `df.columns`.
* `encounter_date` values are `Option Date`: `none` stands for a value that
  `pd.to_datetime(..., errors="coerce")` turns into `NaT` (missing/unparsable);
  `some d` is a successfully parsed calendar date.
* `duration_min` values are `Option ℚ`: `none` stands for a value that
  `pd.to_numeric(..., errors="coerce")` turns into `NaN`.
* Currency amounts and rates are rational numbers; unit counts are integers
  (after `np.floor(...).astype(int)` and `clip(lower=0)`).
* pandas `groupby(...).agg(...)` followed by `sort_values` is modelled by
  taking the deduplicated key list, sorting it, and aggregating the rows of
  each key group; month keys `(year, month)` and `(month, cpt_code)` keys are
  ordered lexicographically via `toLex`.
* The KPI ratio columns divide rationals, so a zero denominator yields `0`
  where floating point would yield `inf`/`NaN`; no claim below depends on the
  value of a ratio at a zero denominator.
-/

namespace StaffProductivity

/-- A parsed calendar date, as produced by `pd.to_datetime`. -/
structure Date where
  year : ℕ
  month : ℕ
  day : ℕ
deriving DecidableEq

/-- An input encounter row for the revenue path. -/
structure Row where
  encounter_date : Option Date
  cpt_code : String
  duration_min : Option ℚ
deriving DecidableEq

/-- A DataFrame for the revenue path: column names plus rows. -/
structure Frame where
  cols : List String
  rows : List Row
deriving DecidableEq

/-- FY23 billing rates (`RATES_FY23` in `revenue_calculator.py`). -/
def RATES_FY23 : List (String × ℚ) :=
  [("90832", 65), ("90834", 100), ("90837", 129),
   ("H0001", 176), ("H0006", 45.5),
   ("T1012", 47.5), ("T1012G", 19),
   ("H0004", 26.5), ("H0038", 24), ("H0038G", 5.5)]

/-- FY24 billing rates (`RATES_FY24`). -/
def RATES_FY24 : List (String × ℚ) :=
  [("90832", 71.5), ("90834", 110), ("90837", 142),
   ("H0001", 194), ("H0006", 50.5),
   ("T1012", 52.5), ("T1012G", 21),
   ("H0004", 29.5), ("H0038", 26.5), ("H0038G", 6.5)]

/-- FY25 billing rates: a copy of FY24 (`RATES_FY25 = dict(RATES_FY24)`). -/
def RATES_FY25 : List (String × ℚ) := RATES_FY24

/-- Registry of rate tables keyed by fiscal-year label (`RATE_TABLES`). -/
def RATE_TABLES : List (String × List (String × ℚ)) :=
  [("FY23", RATES_FY23), ("FY24", RATES_FY24), ("FY25", RATES_FY25)]

/-- Codes billed in 15-minute increments (`TIME_BASED_CODES`). -/
def TIME_BASED_CODES : List String := ["H0038", "H0004"]

/-- The two fatal error shapes raised by the revenue core (both are
`ValueError`s in Python; we keep them structurally distinct). -/
inductive RevError where
  | unknownFiscalYear (fiscal_year : String)
  | missingColumns (missing : List String)
deriving DecidableEq

/-- `get_rates`: return the rate table for a registered fiscal year, else the
`UnknownFiscalYear` error (lines 75-80). -/
def get_rates (fiscal_year : String) : Except RevError (List (String × ℚ)) :=
  match RATE_TABLES.lookup fiscal_year with
  | none => Except.error (RevError.unknownFiscalYear fiscal_year)
  | some t => Except.ok t

/-- `_month_start`: the month bucket of a date, as a (year, month) pair. -/
def month_start (d : Date) : ℕ × ℕ := (d.year, d.month)

/-- A row after date parsing/dropping and month assignment, before
`add_units` (the state of `out` at line 147 of `compute_revenue`). -/
structure PRow where
  encounter_date : Date
  cpt_code : String
  duration_min : Option ℚ
  month : ℕ × ℕ
deriving DecidableEq

/-- A row after `add_units`: `duration_min` coerced (`fillna(0)`) and the
`units` column added. -/
structure URow where
  encounter_date : Date
  cpt_code : String
  duration_min : ℚ
  month : ℕ × ℕ
  units : ℤ
deriving DecidableEq

/-- A fully enriched encounter row (`out` as returned by `compute_revenue`). -/
structure Enriched where
  encounter_date : Date
  cpt_code : String
  duration_min : ℚ
  month : ℕ × ℕ
  units : ℤ
  rate : ℚ
  revenue : ℚ
deriving DecidableEq

/-- `add_units` (lines 89-110): coerce `duration_min` (`NaN → 0`), set
`units = 1`, overwrite with `floor(duration_min / 15)` for time-based codes,
then clip at zero. -/
def add_units (df : List PRow) (time_based_codes : List String) : List URow :=
  df.map fun r =>
    let d : ℚ := r.duration_min.getD 0
    let raw : ℤ := if r.cpt_code ∈ time_based_codes then Rat.floor (d / 15) else 1
    { encounter_date := r.encounter_date
      cpt_code := r.cpt_code
      duration_min := d
      month := r.month
      units := max raw 0 }

/-- Group key of the by-code rollup: (month, cpt_code), lexicographic. -/
def code_key (r : Enriched) : (ℕ ×ₗ ℕ) ×ₗ String := toLex (toLex r.month, r.cpt_code)

/-- Group key of the totals rollup: the month, lexicographic. -/
def month_key (r : Enriched) : ℕ ×ₗ ℕ := toLex r.month

/-- The distinct (month, cpt_code) keys of the enriched rows, in ascending
order (pandas `groupby` + `sort_values(["month", "cpt_code"])`). -/
def group_keys_by_code (rows : List Enriched) : List ((ℕ ×ₗ ℕ) ×ₗ String) :=
  List.insertionSort (fun a b => a ≤ b) (rows.map code_key).dedup

/-- The distinct month keys of the enriched rows, in ascending order. -/
def group_keys_month (rows : List Enriched) : List (ℕ ×ₗ ℕ) :=
  List.insertionSort (fun a b => a ≤ b) (rows.map month_key).dedup

/-- One row of the `monthly_by_code` rollup. -/
structure ByCodeRow where
  month : ℕ × ℕ
  cpt_code : String
  encounters : ℕ
  total_units : ℤ
  revenue : ℚ
deriving DecidableEq

/-- One row of the `monthly_total` rollup. -/
structure TotalRow where
  month : ℕ × ℕ
  encounters : ℕ
  total_units : ℤ
  revenue : ℚ
deriving DecidableEq

/-- The `monthly_by_code` aggregation of `compute_revenue` (lines 157-166). -/
def monthly_by_code (rows : List Enriched) : List ByCodeRow :=
  (group_keys_by_code rows).map fun k =>
    { month := ofLex (ofLex k).1
      cpt_code := (ofLex k).2
      encounters := (rows.filter fun r => code_key r = k).length
      total_units := ((rows.filter fun r => code_key r = k).map Enriched.units).sum
      revenue := ((rows.filter fun r => code_key r = k).map Enriched.revenue).sum }

/-- The `monthly_total` aggregation of `compute_revenue` (lines 168-177). -/
def monthly_total (rows : List Enriched) : List TotalRow :=
  (group_keys_month rows).map fun k =>
    { month := ofLex k
      encounters := (rows.filter fun r => month_key r = k).length
      total_units := ((rows.filter fun r => month_key r = k).map Enriched.units).sum
      revenue := ((rows.filter fun r => month_key r = k).map Enriched.revenue).sum }

/-- The required input columns of `compute_revenue` (line 135). -/
def required_cols : List String := ["encounter_date", "cpt_code", "duration_min"]

/-- The sorted list of required columns absent from `cols`
(`sorted(required_cols - set(df.columns))`, line 138). -/
def missing_cols (cols : List String) : List String :=
  List.insertionSort (fun a b => a ≤ b)
    (required_cols.filter fun c => decide (c ∉ cols))

/-- Rate resolution of `compute_revenue` (lines 130-132): explicit rates take
precedence, otherwise look the fiscal year up in the catalog. -/
def resolve_rates (fiscal_year : String) (rates : Option (List (String × ℚ))) :
    Except RevError (List (String × ℚ)) :=
  match rates with
  | none => get_rates fiscal_year
  | some r => Except.ok r

/-- Date parsing and dropping plus month assignment (lines 142-147): rows whose
`encounter_date` is unparsable (`none`) are dropped. -/
def parse_rows (rows : List Row) : List PRow :=
  rows.filterMap fun r =>
    r.encounter_date.map fun d =>
      { encounter_date := d
        cpt_code := r.cpt_code
        duration_min := r.duration_min
        month := month_start d }

/-- Rate mapping and revenue computation (lines 152-155): a code absent from
the rate mapping gets rate `0` (`.map(rates).fillna(0.0)`). -/
def enrich (rows : List URow) (rates : List (String × ℚ)) : List Enriched :=
  rows.map fun r =>
    let rate : ℚ := (rates.lookup r.cpt_code).getD 0
    { encounter_date := r.encounter_date
      cpt_code := r.cpt_code
      duration_min := r.duration_min
      month := r.month
      units := r.units
      rate := rate
      revenue := (r.units : ℚ) * rate }

/-- `compute_revenue` (lines 113-179): resolve rates, validate columns, parse
and drop dates, add units, map rates, and build the two rollups. -/
def compute_revenue (df : Frame) (fiscal_year : String)
    (rates : Option (List (String × ℚ))) (time_based_codes : List String) :
    Except RevError (List Enriched × List ByCodeRow × List TotalRow) :=
  match resolve_rates fiscal_year rates with
  | Except.error e => Except.error e
  | Except.ok rs =>
    if missing_cols df.cols = [] then
      let out := enrich (add_units (parse_rows df.rows) time_based_codes) rs
      Except.ok (out, monthly_by_code out, monthly_total out)
    else
      Except.error (RevError.missingColumns (missing_cols df.cols))

/-- An input row of the KPI path (`compute_monthly_kpis`): parsed date option,
numeric-coerced duration option, precomputed revenue. -/
structure KRow where
  encounter_date : Option Date
  duration_min : Option ℚ
  revenue : ℚ
deriving DecidableEq

/-- One row of the monthly KPI table of `compute_monthly_kpis`. -/
structure KpiRow where
  month : ℕ × ℕ
  encounters : ℕ
  client_hours : ℚ
  revenue : ℚ
  revenue_per_hour : ℚ
  revenue_per_encounter : ℚ
  utilization_rate : ℚ
deriving DecidableEq

/-- Date handling of `compute_monthly_kpis` (`kpi_metrics.py` lines 28-35):
drop rows with unparsable dates and bucket the remainder by month, keeping the
coerced duration and the revenue. -/
def kpi_parsed (rows : List KRow) : List ((ℕ × ℕ) × Option ℚ × ℚ) :=
  rows.filterMap fun r =>
    r.encounter_date.map fun d => (month_start d, r.duration_min, r.revenue)

/-- The distinct month keys of the KPI grouping, in ascending order. -/
def kpi_keys (parsed : List ((ℕ × ℕ) × Option ℚ × ℚ)) : List (ℕ ×ₗ ℕ) :=
  List.insertionSort (fun a b => a ≤ b)
    (parsed.map fun p => (toLex p.1 : ℕ ×ₗ ℕ)).dedup

/-- The rows of one month group of `compute_monthly_kpis`. -/
def kpi_group (rows : List KRow) (k : ℕ ×ₗ ℕ) : List ((ℕ × ℕ) × Option ℚ × ℚ) :=
  (kpi_parsed rows).filter fun p => (toLex p.1 : ℕ ×ₗ ℕ) = k

/-- `compute_monthly_kpis` (`kpi_metrics.py` lines 16-56): drop bad dates,
bucket by month, aggregate encounters / client hours / revenue, then derive
the ratio KPIs.  `duration_min` values that coerced to `NaN` are skipped by
the pandas sum, hence the `filterMap`. -/
def compute_monthly_kpis (encounters_with_revenue : List KRow) : List KpiRow :=
  (kpi_keys (kpi_parsed encounters_with_revenue)).map fun k =>
    { month := ofLex k
      encounters := (kpi_group encounters_with_revenue k).length
      client_hours :=
        ((kpi_group encounters_with_revenue k).filterMap fun p => p.2.1).sum / 60
      revenue := ((kpi_group encounters_with_revenue k).map fun p => p.2.2).sum
      revenue_per_hour :=
        ((kpi_group encounters_with_revenue k).map fun p => p.2.2).sum /
          (((kpi_group encounters_with_revenue k).filterMap fun p => p.2.1).sum / 60)
      revenue_per_encounter :=
        ((kpi_group encounters_with_revenue k).map fun p => p.2.2).sum /
          ((kpi_group encounters_with_revenue k).length : ℚ)
      utilization_rate :=
        (((kpi_group encounters_with_revenue k).filterMap fun p => p.2.1).sum / 60) /
          160 }

/-- Column names of the `monthly_total` table built by `compute_revenue`
(the `month` group key plus the three aggregates of lines 169-177). -/
def monthly_total_columns : List String :=
  ["month", "encounters", "total_units", "revenue"]

/-- Column names of the monthly KPI table built by `compute_monthly_kpis`
(the `month` group key, the three aggregates, and the three derived KPI
columns of `kpi_metrics.py` lines 38-54). -/
def monthly_kpi_columns : List String :=
  ["month", "encounters", "client_hours", "revenue",
   "revenue_per_hour", "revenue_per_encounter", "utilization_rate"]

/-- The columns the specification claims for the monthly totals structure. -/
def claimed_monthly_total_columns : List String :=
  ["month", "encounters", "total_units", "revenue", "client_hours",
   "revenue_per_hour", "revenue_per_encounter", "utilization_rate"]

/-- The two-row end-to-end example input of the specification: a per-encounter
code with 50 minutes and a time-based code with 47 minutes, both in 2024-01. -/
def exampleFrame : Frame :=
  { cols := ["encounter_date", "cpt_code", "duration_min"]
    rows := [{ encounter_date := some { year := 2024, month := 1, day := 5 },
               cpt_code := "90834", duration_min := some 50 },
             { encounter_date := some { year := 2024, month := 1, day := 20 },
               cpt_code := "H0038", duration_min := some 47 }] }

/-- A single parsed row with a time-based code and a negative duration,
exercising the floor-at-zero clamp of `add_units`. -/
def clampRows : List PRow :=
  [{ encounter_date := { year := 2024, month := 1, day := 5 },
     cpt_code := "H0038", duration_min := some (-30), month := (2024, 1) }]

/-- An input frame whose only absent required column is `cpt_code`. -/
def noCodeFrame : Frame :=
  { cols := ["encounter_date", "duration_min"], rows := [] }

/-- A one-row input whose billing code appears in no rate table. -/
def unmappedFrame : Frame :=
  { cols := ["encounter_date", "cpt_code", "duration_min"]
    rows := [{ encounter_date := some { year := 2024, month := 2, day := 3 },
               cpt_code := "ZZZ", duration_min := some 30 }] }

/-- The enriched row `compute_revenue` produces for `unmappedFrame` (FY24). -/
def unmappedRowE : Enriched :=
  { encounter_date := { year := 2024, month := 2, day := 3 },
    cpt_code := "ZZZ", duration_min := 30, month := (2024, 2),
    units := 1, rate := 0, revenue := 0 }

/-- The enriched rows `compute_revenue` produces for `unmappedFrame` (FY24). -/
def unmappedEnriched : List Enriched := [unmappedRowE]

/-- The single by-code row `compute_revenue` produces for `unmappedFrame`. -/
def unmappedByCodeRow : ByCodeRow :=
  { month := (2024, 2), cpt_code := "ZZZ", encounters := 1, total_units := 1,
    revenue := 0 }

/-- The by-code rollup `compute_revenue` produces for `unmappedFrame` (FY24). -/
def unmappedByCode : List ByCodeRow := [unmappedByCodeRow]

/-- The single totals row `compute_revenue` produces for `unmappedFrame`. -/
def unmappedTotalRow : TotalRow :=
  { month := (2024, 2), encounters := 1, total_units := 1, revenue := 0 }

/-- The totals rollup `compute_revenue` produces for `unmappedFrame` (FY24). -/
def unmappedTotal : List TotalRow := [unmappedTotalRow]

/-- A two-row input whose second row has an unparsable `encounter_date`. -/
def badDateFrame : Frame :=
  { cols := ["encounter_date", "cpt_code", "duration_min"]
    rows := [{ encounter_date := some { year := 2024, month := 5, day := 1 },
               cpt_code := "90832", duration_min := some 60 },
             { encounter_date := none,
               cpt_code := "90834", duration_min := some 50 }] }

/-- A two-row input whose rows arrive in reverse chronological order. -/
def twoMonthFrame : Frame :=
  { cols := ["encounter_date", "cpt_code", "duration_min"]
    rows := [{ encounter_date := some { year := 2024, month := 3, day := 10 },
               cpt_code := "90832", duration_min := some 60 },
             { encounter_date := some { year := 2024, month := 1, day := 2 },
               cpt_code := "90832", duration_min := some 30 }] }

/-- The enriched rows for `twoMonthFrame` (FY24), in input order. -/
def twoMonthEnriched : List Enriched :=
  [{ encounter_date := { year := 2024, month := 3, day := 10 },
     cpt_code := "90832", duration_min := 60, month := (2024, 3),
     units := 1, rate := 71.5, revenue := 71.5 },
   { encounter_date := { year := 2024, month := 1, day := 2 },
     cpt_code := "90832", duration_min := 30, month := (2024, 1),
     units := 1, rate := 71.5, revenue := 71.5 }]

/-- The by-code rollup for `twoMonthFrame` (FY24), sorted by (month, code). -/
def twoMonthByCode : List ByCodeRow :=
  [{ month := (2024, 1), cpt_code := "90832", encounters := 1, total_units := 1,
     revenue := 71.5 },
   { month := (2024, 3), cpt_code := "90832", encounters := 1, total_units := 1,
     revenue := 71.5 }]

/-- The totals rollup for `twoMonthFrame` (FY24), sorted by month. -/
def twoMonthTotal : List TotalRow :=
  [{ month := (2024, 1), encounters := 1, total_units := 1, revenue := 71.5 },
   { month := (2024, 3), encounters := 1, total_units := 1, revenue := 71.5 }]

/-- An empty frame with no columns at all. -/
def emptyFrame : Frame := { cols := [], rows := [] }

theorem add_units_length (df : List PRow) (tb : List String) :
    (add_units df tb).length = df.length := by
  simp [add_units]

theorem toLex_eq_iff {α : Type} {a : α} {k : Lex α} : toLex a = k ↔ a = ofLex k := by
  constructor
  · intro h
    simpa using congrArg ofLex h
  · intro h
    rw [h]
    exact toLex_ofLex k

theorem mem_sort_dedup {K : Type} [DecidableEq K] [LinearOrder K] {l : List K}
    {a : K} : a ∈ List.insertionSort (fun p q => p ≤ q) l.dedup ↔ a ∈ l := by
  rw [(List.perm_insertionSort _ _).mem_iff, List.mem_dedup]

theorem nodup_sort_dedup {K : Type} [DecidableEq K] [LinearOrder K] (l : List K) :
    (List.insertionSort (fun p q => p ≤ q) l.dedup).Nodup :=
  (List.perm_insertionSort _ _).nodup_iff.mpr (List.nodup_dedup l)

theorem sorted_lt_sort_dedup {K : Type} [DecidableEq K] [LinearOrder K]
    (l : List K) :
    (List.insertionSort (fun p q => p ≤ q) l.dedup).Sorted (fun p q => p < q) :=
  (List.sorted_insertionSort _ _).lt_of_le (nodup_sort_dedup l)

theorem sum_map_filter_split {α : Type} (f : α → ℚ) (p : α → Bool) (l : List α) :
    ((l.filter p).map f).sum + ((l.filter fun a => !(p a)).map f).sum
      = (l.map f).sum := by
  induction l with
  | nil => simp
  | cons a l ih =>
    simp only [List.filter_cons]
    by_cases h : p a = true
    · simp only [h, if_true, Bool.not_true, Bool.false_eq_true, if_false,
        List.map_cons, List.sum_cons, ← ih]
      ring
    · have h' : p a = false := by rwa [Bool.not_eq_true] at h
      simp only [h', Bool.false_eq_true, if_false, Bool.not_false, if_true,
        List.map_cons, List.sum_cons, ← ih]
      ring

theorem sum_over_groups {α K : Type} [DecidableEq K] (key : α → K) (f : α → ℚ) :
    ∀ ks : List K, ks.Nodup → ∀ rows : List α, (∀ r ∈ rows, key r ∈ ks) →
      (ks.map fun k => ((rows.filter fun r => key r = k).map f).sum).sum
        = (rows.map f).sum := by
  intro ks
  induction ks with
  | nil =>
    intro _ rows hcov
    cases rows with
    | nil => simp
    | cons r rs => exact absurd (hcov r (List.mem_cons_self r rs)) (List.not_mem_nil _)
  | cons k ks ih =>
    intro hnd rows hcov
    have hknotin : k ∉ ks := (List.nodup_cons.mp hnd).1
    have hnd' : ks.Nodup := (List.nodup_cons.mp hnd).2
    have hsub : ∀ k2 ∈ ks,
        ((rows.filter fun r => !(decide (key r = k))).filter fun r => key r = k2)
          = rows.filter fun r => key r = k2 := by
      intro k2 hk2
      have hk2k : ¬ k2 = k := fun e => hknotin (e ▸ hk2)
      rw [List.filter_filter]
      apply List.filter_congr
      intro a _
      by_cases ha : key a = k2
      · simp [ha, hk2k]
      · simp [ha]
    have hcov2 : ∀ r ∈ rows.filter fun r => !(decide (key r = k)), key r ∈ ks := by
      intro r hr
      obtain ⟨hrmem, hrp⟩ := List.mem_filter.mp hr
      have hne : ¬ key r = k := by simpa using hrp
      rcases List.mem_cons.mp (hcov r hrmem) with h | h
      · exact absurd h hne
      · exact h
    have hmain := ih hnd' (rows.filter fun r => !(decide (key r = k))) hcov2
    have hcongr :
        (ks.map fun k2 => ((rows.filter fun r => key r = k2).map f).sum)
          = ks.map fun k2 =>
              (((rows.filter fun r => !(decide (key r = k))).filter
                fun r => key r = k2).map f).sum := by
      apply List.map_congr_left
      intro k2 hk2
      rw [hsub k2 hk2]
    simp only [List.map_cons, List.sum_cons]
    rw [hcongr, hmain]
    exact sum_map_filter_split f (fun r => decide (key r = k)) rows

theorem compute_revenue_resolve_error (df : Frame) (fy : String)
    (r? : Option (List (String × ℚ))) (tb : List String) (err : RevError)
    (hres : resolve_rates fy r? = Except.error err) :
    compute_revenue df fy r? tb = Except.error err := by
  unfold compute_revenue
  rw [hres]

theorem compute_revenue_missing_eq (df : Frame) (fy : String)
    (r? : Option (List (String × ℚ))) (tb : List String)
    (rs : List (String × ℚ)) (hres : resolve_rates fy r? = Except.ok rs)
    (hm : missing_cols df.cols ≠ []) :
    compute_revenue df fy r? tb =
      Except.error (RevError.missingColumns (missing_cols df.cols)) := by
  unfold compute_revenue
  rw [hres]
  simp [hm]

theorem compute_revenue_ok_eq (df : Frame) (fy : String)
    (r? : Option (List (String × ℚ))) (tb : List String)
    (rs : List (String × ℚ)) (hres : resolve_rates fy r? = Except.ok rs)
    (hm : missing_cols df.cols = []) :
    compute_revenue df fy r? tb =
      Except.ok (enrich (add_units (parse_rows df.rows) tb) rs,
        monthly_by_code (enrich (add_units (parse_rows df.rows) tb) rs),
        monthly_total (enrich (add_units (parse_rows df.rows) tb) rs)) := by
  unfold compute_revenue
  rw [hres]
  simp [hm]

theorem compute_revenue_ok_inv {df : Frame} {fy : String}
    {r? : Option (List (String × ℚ))} {tb : List String}
    {e : List Enriched} {b : List ByCodeRow} {t : List TotalRow}
    (hok : compute_revenue df fy r? tb = Except.ok (e, b, t)) :
    ∃ rs, resolve_rates fy r? = Except.ok rs ∧
      missing_cols df.cols = [] ∧
      e = enrich (add_units (parse_rows df.rows) tb) rs ∧
      b = monthly_by_code e ∧ t = monthly_total e := by
  cases hres : resolve_rates fy r? with
  | error err =>
    rw [compute_revenue_resolve_error df fy r? tb err hres] at hok
    exact absurd hok (by simp)
  | ok rs =>
    by_cases hm : missing_cols df.cols = []
    · rw [compute_revenue_ok_eq df fy r? tb rs hres hm] at hok
      have h := Except.ok.inj hok
      simp only [Prod.mk.injEq] at h
      obtain ⟨he, hb, ht⟩ := h
      exact ⟨rs, by simp [hres], hm, he.symm, by rw [← hb, he], by rw [← ht, he]⟩
    · rw [compute_revenue_missing_eq df fy r? tb rs hres hm] at hok
      exact absurd hok (by simp)

theorem nodup_group_keys_by_code (rows : List Enriched) :
    (group_keys_by_code rows).Nodup :=
  nodup_sort_dedup (rows.map code_key)

theorem sum_map_filter_map {β K : Type} {g : K → β} {h : β → ℚ} {P : β → Bool}
    (P2 : K → Bool) (hP : ∀ k, P (g k) = P2 k) (ks : List K) :
    (((ks.map g).filter P).map h).sum = ((ks.filter P2).map (h ∘ g)).sum := by
  rw [List.filter_map, List.map_map]
  congr 1
  apply congrArg
  apply List.filter_congr
  intro k _
  exact hP k

theorem monthly_rollup_consistency (rows : List Enriched) :
    ∀ row ∈ monthly_total rows,
      (((monthly_by_code rows).filter fun x => x.month = row.month).map
        ByCodeRow.revenue).sum = row.revenue := by
  intro row hrow
  obtain ⟨k, hk, hrow_eq⟩ := List.mem_map.mp hrow
  subst hrow_eq
  show (((monthly_by_code rows).filter fun x => x.month = ofLex k).map
      ByCodeRow.revenue).sum
    = ((rows.filter fun r => month_key r = k).map Enriched.revenue).sum
  unfold monthly_by_code
  rw [sum_map_filter_map (fun k2 => decide ((ofLex k2).1 = k))
    (fun k2 => by simp [decide_eq_decide, ofLex_inj]) (group_keys_by_code rows)]
  have hstep : ((group_keys_by_code rows).filter
        fun k2 => decide ((ofLex k2).1 = k)).map
          (ByCodeRow.revenue ∘ fun k2 =>
            ({ month := ofLex (ofLex k2).1, cpt_code := (ofLex k2).2,
               encounters := (rows.filter fun r => code_key r = k2).length,
               total_units := ((rows.filter fun r => code_key r = k2).map
                 Enriched.units).sum,
               revenue := ((rows.filter fun r => code_key r = k2).map
                 Enriched.revenue).sum } : ByCodeRow))
      = ((group_keys_by_code rows).filter fun k2 => decide ((ofLex k2).1 = k)).map
          fun k2 => (((rows.filter fun r => month_key r = k).filter
            fun r => code_key r = k2).map Enriched.revenue).sum := by
    apply List.map_congr_left
    intro k2 hk2
    have hk2month : (ofLex k2).1 = k := by
      simpa using (List.mem_filter.mp hk2).2
    show ((rows.filter fun r => code_key r = k2).map Enriched.revenue).sum
      = (((rows.filter fun r => month_key r = k).filter
          fun r => code_key r = k2).map Enriched.revenue).sum
    rw [List.filter_filter]
    apply congrArg
    apply congrArg
    apply List.filter_congr
    intro a _
    by_cases ha : code_key a = k2
    · have ham : month_key a = k := by
        rw [← hk2month, ← ha]
        rfl
      simp [ha, ham]
    · simp [ha]
  rw [hstep]
  have hcov : ∀ r ∈ rows.filter fun r => month_key r = k,
      code_key r ∈ (group_keys_by_code rows).filter
        fun k2 => decide ((ofLex k2).1 = k) := by
    intro r hr
    obtain ⟨hrmem, hrp⟩ := List.mem_filter.mp hr
    rw [List.mem_filter]
    constructor
    · exact mem_sort_dedup.mpr (List.mem_map_of_mem code_key hrmem)
    · simpa [code_key, month_key] using of_decide_eq_true hrp
  have hnd : ((group_keys_by_code rows).filter
      fun k2 => decide ((ofLex k2).1 = k)).Nodup :=
    (nodup_group_keys_by_code rows).filter _
  exact sum_over_groups code_key Enriched.revenue
    ((group_keys_by_code rows).filter fun k2 => decide ((ofLex k2).1 = k)) hnd
    (rows.filter fun r => month_key r = k) hcov

theorem get_rates_not_registered (fy : String) (h : fy ∉ ["FY23", "FY24", "FY25"]) :
    get_rates fy = Except.error (RevError.unknownFiscalYear fy) := by
  simp only [List.mem_cons, List.not_mem_nil, or_false, not_or] at h
  obtain ⟨h1, h2, h3⟩ := h
  simp [get_rates, RATE_TABLES, List.lookup,
    beq_eq_false_iff_ne.mpr h1, beq_eq_false_iff_ne.mpr h2, beq_eq_false_iff_ne.mpr h3]

/-- C1: on the specification's two-row FY24 example — (2024-01-05, "90834",
50 min) and (2024-01-20, "H0038", 47 min) — `compute_revenue` with the default
time-based code set yields a `monthly_total` table with the single row
2024-01: encounters = 2, total_units = 1 + floor(47/15) = 4, and
revenue = 110.00 + 3 × 26.50 = 189.50. -/
theorem compute_revenue_end_to_end_example :
    (compute_revenue exampleFrame "FY24" none TIME_BASED_CODES).toOption.map
      (fun p => p.2.2) =
    some [{ month := (2024, 1), encounters := 2, total_units := 4,
            revenue := 189.5 }] := by
  decide

/-- C2: for every input row, `add_units` sets `units` to
`floor(duration_min / 15)` clamped at zero when the code is time-based (with a
missing or non-numeric duration coerced to 0 before the division), and to 1
otherwise, regardless of the duration. -/
theorem add_units_units_formula (df : List PRow) (tb : List String) (i : ℕ)
    (h : i < df.length) :
    ((add_units df tb).get ⟨i, by rw [add_units_length]; exact h⟩).units =
      if (df.get ⟨i, h⟩).cpt_code ∈ tb
      then max (Rat.floor ((df.get ⟨i, h⟩).duration_min.getD 0 / 15)) 0
      else 1 := by
  simp only [add_units, List.get_eq_getElem, List.getElem_map]
  by_cases hm : df[i].cpt_code ∈ tb
  · simp [hm]
  · simp [hm]

/-- Witness for C2: a time-based row with duration −30 gets
max(floor(−30/15), 0) = 0 units — the clamp fires instead of an error. -/
theorem add_units_units_formula_witness :
    ((add_units clampRows TIME_BASED_CODES).get ⟨0, by decide⟩).units = 0 :=
  (add_units_units_formula clampRows TIME_BASED_CODES 0 (by decide)).trans (by decide)

/-- C4: whenever rate resolution succeeds and at least one required column is
absent, `compute_revenue` fails with `MissingColumns` carrying exactly the
absent required columns, sorted ascending. -/
theorem compute_revenue_missing_columns (df : Frame) (fy : String)
    (r? : Option (List (String × ℚ))) (tb : List String)
    (rs : List (String × ℚ)) (hres : resolve_rates fy r? = Except.ok rs)
    (hmiss : ∃ c ∈ required_cols, c ∉ df.cols) :
    compute_revenue df fy r? tb =
      Except.error (RevError.missingColumns (missing_cols df.cols)) ∧
    (∀ c, c ∈ missing_cols df.cols ↔ (c ∈ required_cols ∧ c ∉ df.cols)) ∧
    (missing_cols df.cols).Sorted (fun a b => a ≤ b) := by
  have hmem : ∀ c, c ∈ missing_cols df.cols ↔ (c ∈ required_cols ∧ c ∉ df.cols) := by
    intro c
    unfold missing_cols
    rw [(List.perm_insertionSort _ _).mem_iff, List.mem_filter]
    simp
  have hne : missing_cols df.cols ≠ [] := by
    obtain ⟨c, hc, hnc⟩ := hmiss
    exact List.ne_nil_of_mem ((hmem c).mpr ⟨hc, hnc⟩)
  refine ⟨?_, hmem, ?_⟩
  · unfold compute_revenue
    rw [hres]
    simp [hne]
  · exact List.sorted_insertionSort _ _

/-- Witness for C4: an input frame with only `encounter_date` and
`duration_min` columns fails naming exactly `cpt_code`. -/
theorem compute_revenue_missing_columns_witness :
    compute_revenue noCodeFrame "FY24" none TIME_BASED_CODES =
      Except.error (RevError.missingColumns ["cpt_code"]) :=
  (compute_revenue_missing_columns noCodeFrame "FY24" none TIME_BASED_CODES
    RATES_FY24 rfl ⟨"cpt_code", by decide, by decide⟩).1

/-- C5: `get_rates` returns the full rate mapping for each registered fiscal
year FY23/FY24/FY25 and fails with `UnknownFiscalYear` on every other label,
never falling back to a default table. -/
theorem get_rates_registry :
    get_rates "FY23" = Except.ok RATES_FY23 ∧
    get_rates "FY24" = Except.ok RATES_FY24 ∧
    get_rates "FY25" = Except.ok RATES_FY25 ∧
    ∀ fy : String, fy ∉ ["FY23", "FY24", "FY25"] →
      get_rates fy = Except.error (RevError.unknownFiscalYear fy) :=
  ⟨rfl, rfl, rfl, get_rates_not_registered⟩

/-- Witness for C5: the unregistered label "FY99" fails with
`UnknownFiscalYear`. -/
theorem get_rates_registry_witness :
    get_rates "FY99" = Except.error (RevError.unknownFiscalYear "FY99") :=
  get_rates_registry.2.2.2 "FY99" (by decide)

/-- C3: whenever `compute_revenue` succeeds, the `monthly_by_code` revenues of
any month appearing in the outputs sum to the `monthly_total` revenue of that
month. -/
theorem rollups_revenue_consistent (df : Frame) (fy : String)
    (r? : Option (List (String × ℚ))) (tb : List String)
    (e : List Enriched) (b : List ByCodeRow) (t : List TotalRow)
    (hok : compute_revenue df fy r? tb = Except.ok (e, b, t)) :
    ∀ row ∈ t, ((b.filter fun x => x.month = row.month).map
      ByCodeRow.revenue).sum = row.revenue := by
  obtain ⟨rs, -, -, he, hb, ht⟩ := compute_revenue_ok_inv hok
  subst hb
  subst ht
  exact monthly_rollup_consistency e

/-- Witness for C3: in the two-month example, the by-code revenues of 2024-01
sum to that month's total revenue 71.50. -/
theorem rollups_revenue_consistent_witness :
    ((twoMonthByCode.filter fun x => x.month = (2024, 1)).map
      ByCodeRow.revenue).sum = 71.5 :=
  (rollups_revenue_consistent twoMonthFrame "FY24" none TIME_BASED_CODES
    twoMonthEnriched twoMonthByCode twoMonthTotal rfl
    { month := (2024, 1), encounters := 1, total_units := 1, revenue := 71.5 }
    (by decide)).trans (by decide)

theorem parse_rows_filter (rows : List Row) :
    parse_rows (rows.filter fun r => r.encounter_date ≠ none) = parse_rows rows := by
  induction rows with
  | nil => rfl
  | cons r rows ih =>
    simp only [parse_rows, ne_eq, decide_not] at ih ⊢
    cases h : r.encounter_date with
    | none => simp [List.filter_cons, List.filterMap_cons, h, ih]
    | some d => simp [List.filter_cons, List.filterMap_cons, h, ih]

theorem parse_rows_length (rows : List Row) :
    (parse_rows rows).length
      = (rows.filter fun r => r.encounter_date ≠ none).length := by
  induction rows with
  | nil => rfl
  | cons r rows ih =>
    simp only [parse_rows, ne_eq, decide_not] at ih ⊢
    cases h : r.encounter_date with
    | none => simp [List.filter_cons, List.filterMap_cons, h, ih]
    | some d => simp [List.filter_cons, List.filterMap_cons, h, ih]

/-- C6: every enriched row satisfies `revenue = units × rate` with the rate
defaulting silently to 0 for billing codes absent from the resolved mapping,
and the `encounters` counts of both rollups count all rows of the group —
zero-rate rows included. -/
theorem revenue_row_semantics (df : Frame) (fy : String)
    (r? : Option (List (String × ℚ))) (tb : List String)
    (rs : List (String × ℚ)) (e : List Enriched) (b : List ByCodeRow)
    (t : List TotalRow) (hres : resolve_rates fy r? = Except.ok rs)
    (hok : compute_revenue df fy r? tb = Except.ok (e, b, t)) :
    (∀ r ∈ e, r.revenue = (r.units : ℚ) * r.rate ∧
      r.rate = (rs.lookup r.cpt_code).getD 0) ∧
    (∀ row ∈ t, row.encounters =
      (e.filter fun x => x.month = row.month).length) ∧
    (∀ row ∈ b, row.encounters =
      (e.filter fun x => x.month = row.month ∧
        x.cpt_code = row.cpt_code).length) := by
  obtain ⟨rs2, hres2, -, he, hb, ht⟩ := compute_revenue_ok_inv hok
  have hrs : rs2 = rs := by
    rw [hres] at hres2
    exact (Except.ok.inj hres2).symm
  subst hrs
  subst hb
  subst ht
  refine ⟨?_, ?_, ?_⟩
  · intro r hr
    rw [he] at hr
    obtain ⟨u, hu, hru⟩ := List.mem_map.mp hr
    subst hru
    exact ⟨rfl, rfl⟩
  · intro row hrow
    obtain ⟨k, hk, hrow_eq⟩ := List.mem_map.mp hrow
    subst hrow_eq
    show (e.filter fun r => month_key r = k).length
      = (e.filter fun x => x.month = ofLex k).length
    apply congrArg
    apply List.filter_congr
    intro a _
    exact decide_eq_decide.mpr (toLex_eq_iff (a := a.month))
  · intro row hrow
    obtain ⟨k, hk, hrow_eq⟩ := List.mem_map.mp hrow
    subst hrow_eq
    show (e.filter fun r => code_key r = k).length
      = (e.filter fun x => x.month = ofLex (ofLex k).1 ∧
          x.cpt_code = (ofLex k).2).length
    apply congrArg
    apply List.filter_congr
    intro a _
    apply decide_eq_decide.mpr
    unfold code_key
    rw [toLex_eq_iff, Prod.ext_iff]
    constructor
    · rintro ⟨h1, h2⟩
      exact ⟨toLex_eq_iff.mp h1, h2⟩
    · rintro ⟨h1, h2⟩
      exact ⟨toLex_eq_iff.mpr h1, h2⟩

/-- Witness for C6: the single "ZZZ" row gets rate 0 and revenue 0 but is
still counted once in both rollups. -/
theorem revenue_row_semantics_witness :
    (unmappedRowE.revenue = (unmappedRowE.units : ℚ) * unmappedRowE.rate ∧
      unmappedRowE.rate = (RATES_FY24.lookup unmappedRowE.cpt_code).getD 0) ∧
    unmappedTotalRow.encounters =
      (unmappedEnriched.filter fun x => x.month = unmappedTotalRow.month).length ∧
    unmappedByCodeRow.encounters =
      (unmappedEnriched.filter fun x => x.month = unmappedByCodeRow.month ∧
        x.cpt_code = unmappedByCodeRow.cpt_code).length := by
  have h := revenue_row_semantics unmappedFrame "FY24" none TIME_BASED_CODES
    RATES_FY24 unmappedEnriched unmappedByCode unmappedTotal rfl rfl
  exact ⟨h.1 unmappedRowE (by decide), h.2.1 unmappedTotalRow (by decide),
    h.2.2 unmappedByCodeRow (by decide)⟩

/-- C7: with the required columns present and rates resolved, rows with an
unparsable `encounter_date` are silently dropped: the run equals the run on
the pre-filtered input, it succeeds, and the enriched output has exactly one
row per parseable input row. -/
theorem bad_dates_dropped (df : Frame) (fy : String)
    (r? : Option (List (String × ℚ))) (tb : List String)
    (rs : List (String × ℚ)) (hres : resolve_rates fy r? = Except.ok rs)
    (hcols : ∀ c ∈ required_cols, c ∈ df.cols) :
    compute_revenue df fy r? tb =
      compute_revenue
        { cols := df.cols, rows := df.rows.filter fun r => r.encounter_date ≠ none }
        fy r? tb ∧
    ∃ e b t, compute_revenue df fy r? tb = Except.ok (e, b, t) ∧
      e.length = (df.rows.filter fun r => r.encounter_date ≠ none).length := by
  have hm : missing_cols df.cols = [] := by
    unfold missing_cols
    have hf : required_cols.filter (fun c => decide (c ∉ df.cols)) = [] :=
      List.filter_eq_nil_iff.mpr (fun c hc => by simp [hcols c hc])
    rw [hf]
    rfl
  have hm2 : missing_cols
      (Frame.mk df.cols (df.rows.filter fun r => r.encounter_date ≠ none)).cols
        = [] := hm
  constructor
  · rw [compute_revenue_ok_eq df fy r? tb rs hres hm,
      compute_revenue_ok_eq
        { cols := df.cols, rows := df.rows.filter fun r => r.encounter_date ≠ none }
        fy r? tb rs hres hm2]
    dsimp only
    rw [parse_rows_filter]
  · refine ⟨_, _, _, compute_revenue_ok_eq df fy r? tb rs hres hm, ?_⟩
    simp [enrich, add_units_length, parse_rows_length]

/-- Witness for C7: on the input whose second row has an unparsable date, the
run equals the run on the one-good-row input and yields one enriched row. -/
theorem bad_dates_dropped_witness :
    compute_revenue badDateFrame "FY24" none TIME_BASED_CODES =
      compute_revenue
        { cols := badDateFrame.cols,
          rows := badDateFrame.rows.filter fun r => r.encounter_date ≠ none }
        "FY24" none TIME_BASED_CODES ∧
    ∃ e b t, compute_revenue badDateFrame "FY24" none TIME_BASED_CODES =
        Except.ok (e, b, t) ∧
      e.length = (badDateFrame.rows.filter fun r => r.encounter_date ≠ none).length :=
  bad_dates_dropped badDateFrame "FY24" none TIME_BASED_CODES RATES_FY24 rfl
    (by decide)

theorem map_key_monthly_by_code (rows : List Enriched) :
    ((monthly_by_code rows).map fun x =>
        (toLex (toLex x.month, x.cpt_code) : (ℕ ×ₗ ℕ) ×ₗ String))
      = group_keys_by_code rows := by
  unfold monthly_by_code
  rw [List.map_map]
  refine (List.map_congr_left ?_).trans (List.map_id _)
  intro k hk
  simp [Function.comp, Prod.mk.eta]

theorem map_key_monthly_total (rows : List Enriched) :
    ((monthly_total rows).map fun x => (toLex x.month : ℕ ×ₗ ℕ))
      = group_keys_month rows := by
  unfold monthly_total
  rw [List.map_map]
  refine (List.map_congr_left ?_).trans (List.map_id _)
  intro k hk
  simp [Function.comp]

/-- C8: the by-code rollup has a unique row per (month, cpt_code) pair, in
strictly ascending lexicographic order, and the totals rollup has a unique
row per month, in strictly ascending order. -/
theorem rollups_sorted_unique (df : Frame) (fy : String)
    (r? : Option (List (String × ℚ))) (tb : List String)
    (e : List Enriched) (b : List ByCodeRow) (t : List TotalRow)
    (hok : compute_revenue df fy r? tb = Except.ok (e, b, t)) :
    ((b.map fun x => (toLex (toLex x.month, x.cpt_code) : (ℕ ×ₗ ℕ) ×ₗ String)).Sorted
      fun p q => p < q) ∧
    ((t.map fun x => (toLex x.month : ℕ ×ₗ ℕ)).Sorted fun p q => p < q) := by
  obtain ⟨rs, -, -, he, hb, ht⟩ := compute_revenue_ok_inv hok
  subst hb
  subst ht
  constructor
  · rw [map_key_monthly_by_code]
    exact sorted_lt_sort_dedup (e.map code_key)
  · rw [map_key_monthly_total]
    exact sorted_lt_sort_dedup (e.map month_key)

/-- Witness for C8: the two-month example's rollups carry strictly ascending,
duplicate-free keys. -/
theorem rollups_sorted_unique_witness :
    ((twoMonthByCode.map fun x =>
        (toLex (toLex x.month, x.cpt_code) : (ℕ ×ₗ ℕ) ×ₗ String)).Sorted
      fun p q => p < q) ∧
    ((twoMonthTotal.map fun x => (toLex x.month : ℕ ×ₗ ℕ)).Sorted
      fun p q => p < q) :=
  rollups_sorted_unique twoMonthFrame "FY24" none TIME_BASED_CODES
    twoMonthEnriched twoMonthByCode twoMonthTotal rfl

theorem sorted_kpi_months (rows : List KRow) :
    ((compute_monthly_kpis rows).map fun x => (toLex x.month : ℕ ×ₗ ℕ)).Sorted
      fun p q => p < q := by
  unfold compute_monthly_kpis
  rw [List.map_map]
  have heq : ((kpi_keys (kpi_parsed rows)).map
        ((fun x => (toLex x.month : ℕ ×ₗ ℕ)) ∘ fun k =>
          ({ month := ofLex k
             encounters := (kpi_group rows k).length
             client_hours := ((kpi_group rows k).filterMap fun p => p.2.1).sum / 60
             revenue := ((kpi_group rows k).map fun p => p.2.2).sum
             revenue_per_hour := ((kpi_group rows k).map fun p => p.2.2).sum /
               (((kpi_group rows k).filterMap fun p => p.2.1).sum / 60)
             revenue_per_encounter := ((kpi_group rows k).map fun p => p.2.2).sum /
               ((kpi_group rows k).length : ℚ)
             utilization_rate := (((kpi_group rows k).filterMap
               fun p => p.2.1).sum / 60) / 160 } : KpiRow)))
      = kpi_keys (kpi_parsed rows) := by
    refine (List.map_congr_left ?_).trans (List.map_id _)
    intro k hk
    simp [Function.comp]
  rw [heq]
  exact sorted_lt_sort_dedup _

/-- Counterexample for C9: no single monthly table carries all the claimed
columns — `client_hours` is absent from `compute_revenue`'s `monthly_total`
and `total_units` is absent from the `compute_monthly_kpis` table. -/
theorem monthly_total_columns_counterexample :
    ("client_hours" ∈ claimed_monthly_total_columns ∧
      "client_hours" ∉ monthly_total_columns) ∧
    ("total_units" ∈ claimed_monthly_total_columns ∧
      "total_units" ∉ monthly_kpi_columns) ∧
    ¬ claimed_monthly_total_columns ⊆ monthly_total_columns ∧
    ¬ claimed_monthly_total_columns ⊆ monthly_kpi_columns := by
  decide

/-- C9 (amended): the claimed columns are split over the two monthly tables —
`compute_revenue`'s `monthly_total` provides encounters, total_units and
revenue, `compute_monthly_kpis` provides encounters, client_hours, revenue
and the three ratio KPIs — every claimed column appears in one of the two,
and each table's month key is unique and strictly ascending: for every
enriched row set in the case of `monthly_total`, and for every input row set
in the case of `compute_monthly_kpis`. -/
theorem monthly_total_columns_amended :
    claimed_monthly_total_columns ⊆ monthly_total_columns ++ monthly_kpi_columns ∧
    (∀ rows : List Enriched,
      ((monthly_total rows).map fun x => (toLex x.month : ℕ ×ₗ ℕ)).Sorted
        fun p q => p < q) ∧
    ∀ rows : List KRow,
      ((compute_monthly_kpis rows).map fun x => (toLex x.month : ℕ ×ₗ ℕ)).Sorted
        fun p q => p < q :=
  ⟨by decide,
   fun rows => by
     rw [map_key_monthly_total]
     exact sorted_lt_sort_dedup (rows.map month_key),
   sorted_kpi_months⟩

/-- C10: with no explicit rates and an unregistered fiscal year,
`compute_revenue` fails with `UnknownFiscalYear` for every input frame — even
one missing required columns — because rates are resolved before column
validation, so `MissingColumns` is never raised there. -/
theorem compute_revenue_unknown_year_first (df : Frame) (fy : String)
    (tb : List String) (h : fy ∉ ["FY23", "FY24", "FY25"]) :
    compute_revenue df fy none tb =
      Except.error (RevError.unknownFiscalYear fy) := by
  unfold compute_revenue resolve_rates
  rw [get_rates_not_registered fy h]

/-- Witness for C10: a frame with no columns at all, under "FY99", still
reports `UnknownFiscalYear` rather than `MissingColumns`. -/
theorem compute_revenue_unknown_year_first_witness :
    compute_revenue emptyFrame "FY99" none TIME_BASED_CODES =
      Except.error (RevError.unknownFiscalYear "FY99") :=
  compute_revenue_unknown_year_first emptyFrame "FY99" TIME_BASED_CODES (by decide)

end StaffProductivity
